import Mathlib

set_option maxHeartbeats 1000000

namespace Yelo

/-! Shallow embedding of the bulk-upload core of `bulk_users_load_yelo`
(`src/models.py`, `src/upload_data.py`, `src/api_client.py`).

The external HTTP client is abstracted by an environment that chooses, for
each request the code makes, one of the outcomes the client can actually
deliver (a constructible typed error, the `TypeError` standing in for the
two exception classes whose constructors are broken, a `None` result for an
empty/204 body, or a validated response object).  The exception machinery
of `custom_exceptions.py` is modelled faithfully, including its two bugs:
`ApiClientError.__str__` reads a never-set `request_url` attribute, so
`str(e)` on any constructible client error raises `AttributeError`; and
`ApiHttpError`/`ApiResponseValidationError` forward a `request_url` keyword
their base `__init__` does not accept, so constructing them always raises
`TypeError`.  Functions that can die on these exceptions return an explicit
ok/died result.  Record workers run concurrently in the source but each
worker mutates only its own record, so the batch is modelled as a
per-record function applied at each to-process index. -/

/-- Modelled constant for the environment-provided API key
(`YELO_API_KEY = os.getenv("YELO_API_KEY", "default_api_key")` in `models.py`). -/
def YELO_API_KEY : String := "default_api_key"

/-- Structure `CleanAddress` from `models.py`.  Latitude/longitude are floats in the
source; they are never computed on, only carried into payloads, so they are
modelled as `Int`. -/
structure CleanAddress where
  address : String
  latitude : Int
  longitude : Int
  house_no : String
  loc_type : Int
  postal_code : String
  id : Option Int := none
  upload_status : Option String := none
  error_message : Option String := none
  deriving DecidableEq

/-- Structure `CleanCustomField` from `models.py` (the custom-field step is a stub in
the source; the structure is carried for fidelity). -/
structure CleanCustomField where
  app_side : Int
  data : String
  field_input : String
  data_type : String
  display_name : String
  label : String
  required : Int
  value : String
  template_id : String
  is_new : Bool
  id : Option String := none
  upload_status : Option String := none
  deriving DecidableEq

/-- Structure `CleanUserData` from `models.py`. -/
structure CleanUserData where
  password : String
  first_name : String
  last_name : String
  email : Option String := none
  phone_no : Option String := none
  addresses : List CleanAddress
  custom_fields : Option (List CleanCustomField) := none
  upload_status : Option String := none
  customer_id : Option Int
  error_message : Option String := none
  deriving DecidableEq

/-- Structure `PostUserYelo` from `models.py`: the user-creation payload.  `email` and
`phone_no` are required (non-optional) strings there. -/
structure PostUserYelo where
  api_key : String
  first_name : String
  last_name : String
  email : String
  phone_no : String
  password : String
  deriving DecidableEq

/-- Structure `PostUserAddressYelo` from `models.py`: the address-creation payload
(`email`/`phone_no` are optional there). -/
structure PostUserAddressYelo where
  api_key : String
  customer_id : Int
  address : String
  house_no : String
  email : Option String
  phone_no : Option String
  latitude : Int
  longitude : Int
  name : String
  loc_type : Int
  deriving DecidableEq

/-- Structure `DataUser` from `models.py` (after pydantic validation the alias
`vendor_id` has already been resolved into `customer_id`). -/
structure DataUser where
  customer_id : Int
  deriving DecidableEq

/-- Structure `ResponsePostUserYelo` from `models.py`, with the inherited
`YeloResponses` fields flattened in. -/
structure ResponsePostUserYelo where
  message : String
  status : Int
  data : DataUser
  deriving DecidableEq

/-- Structure `DataAddress` from `models.py`. -/
structure DataAddress where
  id : Int
  deriving DecidableEq

/-- Structure `ResponsePostAddressYelo` from `models.py`, with the inherited
`YeloResponses` fields flattened in. -/
structure ResponsePostAddressYelo where
  message : String
  status : Int
  data : DataAddress
  deriving DecidableEq

/-- Message of the `TypeError` raised whenever the source tries to
construct `ApiHttpError` or `ApiResponseValidationError`: their `__init__`
(`custom_exceptions.py` lines 48-60 and 66-78) forwards a `request_url`
keyword that `ApiClientError.__init__` (lines 7-15) does not accept, so
neither class can ever be instantiated. -/
def TYPE_ERROR_TEXT : String :=
  "ApiClientError.__init__ got an unexpected keyword argument request_url"

/-- Message of the `AttributeError` raised whenever `str(e)` is evaluated
on a constructible client error: `ApiClientError.__str__`
(`custom_exceptions.py` lines 17-30) reads `self.request_url`, which no
`__init__` ever sets. -/
def ATTRIBUTE_ERROR_TEXT : String :=
  "ApiClientError object has no attribute request_url"

/-- The exception kinds of the client layer (`custom_exceptions.py`).
`timeoutErr`, `connectionErr` and `genericErr` model the constructible
`ApiTimeoutError`/`ApiConnectionError`/`ApiClientError` instances (whose
`str(e)` nonetheless raises `AttributeError`, see `ATTRIBUTE_ERROR_TEXT`).
`httpErr` and `shapeErr` name the declared `ApiHttpError` and
`ApiResponseValidationError` classes, which can never be instantiated:
every `raise` of them actually raises a `TypeError`, modelled by `typeErr`
carrying the `TypeError` message (see `TYPE_ERROR_TEXT`).  Each constructor
carries the message text; the auxiliary status-code and body attributes
play no role in any claim and are not modelled. -/
inductive ApiError where
  | timeoutErr (msg : String)
  | connectionErr (msg : String)
  | httpErr (msg : String)
  | shapeErr (msg : String)
  | genericErr (msg : String)
  | typeErr (msg : String)
  deriving DecidableEq

/-- Outcome of one `client.post(...)` call as actually deliverable to
callers: a raised exception (a constructible client error, or the
`TypeError` `.typeErr` that stands in for the broken `ApiHttpError` and
`ApiResponseValidationError` constructions inside `_request`), a `None`
return (204/empty body), or a validated response object.  `httpErr` and
`shapeErr` are never deliverable here. -/
inductive PostCallOutcome (α : Type) where
  | err (e : ApiError)
  | noContent
  | ok (r : α)
  deriving DecidableEq

/-- One network request issued by the upload code, with its payload.
No custom-field request constructor exists because the source never issues
one (`_post_custom_fields` is a stub). -/
inductive ApiCall where
  | postUser (payload : PostUserYelo)
  | postAddress (payload : PostUserAddressYelo)
  deriving DecidableEq

/-- Construction of the `PostUserYelo` payload in `_post_user`
(`upload_data.py` lines 43-49).  `PostUserYelo.email`/`phone_no` are
required strings, so pydantic raises a `ValidationError` (an unexpected,
non-client exception inside the `try`) when the record carries `None`
there; that failure is modelled as `none`. -/
def mkUserPayload (u : CleanUserData) : Option PostUserYelo :=
  match u.email, u.phone_no with
  | some e, some p =>
      some { api_key := YELO_API_KEY, first_name := u.first_name,
             last_name := u.last_name, email := e, phone_no := p,
             password := u.password }
  | _, _ => none

/-- Result of running `_post_user`: either a normal return (mutated
record, optional customer id, request trace), or an unexpected exception
escaping the function (record state at the raise, exception text, request
trace so far). -/
inductive PostUserResult where
  | ok (u : CleanUserData) (cid : Option Int) (calls : List ApiCall)
  | died (u : CleanUserData) (exc : String) (calls : List ApiCall)
  deriving DecidableEq

/-- Function `_post_user` (`upload_data.py` lines 26-88), with the broken
exception machinery of `custom_exceptions.py` modelled faithfully:
a constructible client error (timeout/connection/decode/generic) is caught
by the declared handler at lines 79-82, but the logging f-string at line 80
evaluates `str(e)`, which raises `AttributeError` BEFORE line 81 stores any
message — the function dies with the record unchanged.  The `TypeError`
standing in for `ApiHttpError`/`ApiResponseValidationError` falls through
to `except Exception` (lines 83-88), which stores the unexpected-error
message and returns `None`.  A `None` client return or a `200 OK` response
with a falsy (`0`) `customer_id` makes line 67 attempt to construct
`ApiResponseValidationError`, which itself raises `TypeError` inside the
`try`, again landing in `except Exception`.  The dead assignment of
`"User creation failed: …"` at line 81 is unreachable. -/
def _post_user (u : CleanUserData)
    (out : PostCallOutcome ResponsePostUserYelo) : PostUserResult :=
  match mkUserPayload u with
  | none =>
      PostUserResult.ok
        { u with
            error_message :=
              some "Unexpected user creation error: validation error" }
        none []
  | some payload =>
      let tr := [ApiCall.postUser payload]
      match out with
      | .err (.typeErr m) =>
          PostUserResult.ok
            { u with
                error_message :=
                  some ("Unexpected user creation error: " ++ m) }
            none tr
      | .err _ =>
          PostUserResult.died u ATTRIBUTE_ERROR_TEXT tr
      | .noContent =>
          PostUserResult.ok
            { u with
                error_message :=
                  some ("Unexpected user creation error: " ++ TYPE_ERROR_TEXT) }
            none tr
      | .ok r =>
          if r.data.customer_id = 0 then
            PostUserResult.ok
              { u with
                  error_message :=
                    some ("Unexpected user creation error: " ++ TYPE_ERROR_TEXT) }
              none tr
          else
            PostUserResult.ok u (some r.data.customer_id) tr

/-- Construction of the `PostUserAddressYelo` payload in `_post_addresses`
(`upload_data.py` lines 127-138); all fields are well-typed, so it is total. -/
def mkAddrPayload (u : CleanUserData) (cid : Int) (a : CleanAddress) :
    PostUserAddressYelo :=
  { api_key := YELO_API_KEY, customer_id := cid, address := a.address,
    house_no := a.house_no, email := u.email, phone_no := u.phone_no,
    latitude := a.latitude, longitude := a.longitude,
    name := u.first_name ++ " " ++ u.last_name, loc_type := a.loc_type }

/-- Result of one iteration of the address loop: a normal iteration
(updated address, whether it failed, requests issued), or an unexpected
exception escaping the iteration (address state at the raise, exception
text, requests issued). -/
inductive AddrStepResult where
  | ok (a : CleanAddress) (failed : Bool) (calls : List ApiCall)
  | died (a : CleanAddress) (exc : String) (calls : List ApiCall)
  deriving DecidableEq

/-- Body of one iteration of the address loop (`upload_data.py` lines
118-180), with the broken exception machinery modelled faithfully: an
address whose `id` is already set is skipped; otherwise it is marked
`processing` and one request is issued.  On a valid success response the
returned id is stored and the address marked `success`.  The `TypeError`
standing in for `ApiHttpError`/`ApiResponseValidationError` lands in
`except Exception` (lines 174-180), which marks the address `failed` with
the `"Unexpected error: …."` text — the `str(e)` assignment of the declared
handler at line 172 is unreachable.  A `None` return or a falsy response id
makes line 155 attempt to construct `ApiResponseValidationError`, raising
`TypeError` inside the `try`, again landing in `except Exception`.  A
constructible client error (timeout/connection/decode/generic) is caught by
the declared handler at line 167, whose logging f-string at line 168
evaluates `str(e)` and raises `AttributeError` BEFORE line 171 marks the
address failed: the iteration dies with the address left `processing` and
no message stored. -/
def addrStep (u : CleanUserData) (cid : Int)
    (out : PostCallOutcome ResponsePostAddressYelo) (a : CleanAddress) :
    AddrStepResult :=
  if a.id ≠ none then
    AddrStepResult.ok a false []
  else
    let a1 := { a with upload_status := some "processing" }
    let tr := [ApiCall.postAddress (mkAddrPayload u cid a)]
    match out with
    | .err (.typeErr m) =>
        AddrStepResult.ok
          { a1 with
              upload_status := some "failed",
              error_message := some ("Unexpected error: " ++ m ++ ".") }
          true tr
    | .err _ =>
        AddrStepResult.died a1 ATTRIBUTE_ERROR_TEXT tr
    | .noContent =>
        AddrStepResult.ok
          { a1 with
              upload_status := some "failed",
              error_message :=
                some ("Unexpected error: " ++ TYPE_ERROR_TEXT ++ ".") }
          true tr
    | .ok r =>
        if r.data.id = 0 then
          AddrStepResult.ok
            { a1 with
                upload_status := some "failed",
                error_message :=
                  some ("Unexpected error: " ++ TYPE_ERROR_TEXT ++ ".") }
            true tr
        else
          AddrStepResult.ok
            { a1 with id := some r.data.id, upload_status := some "success" }
            false tr

/-- Result of the address loop: a normal run over the whole list, or an
escaping exception that aborts the loop, leaving the already-visited prefix
updated and the remaining addresses untouched. -/
inductive AddrLoopResult where
  | ok (as : List CleanAddress) (anyFailed : Bool) (calls : List ApiCall)
  | died (as : List CleanAddress) (exc : String) (calls : List ApiCall)
  deriving DecidableEq

/-- The address loop of `_post_addresses`, threading the
`any_address_failed` flag; `i` is the enumeration index feeding the
per-address outcome environment.  An `AttributeError` escaping one
iteration aborts the loop: later siblings get no creation attempt. -/
def addrLoop (u : CleanUserData) (cid : Int)
    (env : Nat → PostCallOutcome ResponsePostAddressYelo) :
    Nat → List CleanAddress → AddrLoopResult
  | _, [] => AddrLoopResult.ok [] false []
  | i, a :: rest =>
    match addrStep u cid (env i) a with
    | AddrStepResult.ok a1 failedHere tr1 =>
        match addrLoop u cid env (i + 1) rest with
        | AddrLoopResult.ok rest1 anyF tr2 =>
            AddrLoopResult.ok (a1 :: rest1) (failedHere || anyF) (tr1 ++ tr2)
        | AddrLoopResult.died rest1 exc tr2 =>
            AddrLoopResult.died (a1 :: rest1) exc (tr1 ++ tr2)
    | AddrStepResult.died a1 exc tr1 =>
        AddrLoopResult.died (a1 :: rest) exc tr1

/-- Result of `_post_addresses`: a normal return (record with addresses
updated, `True` iff no attempt failed) or an escaping exception (record
with the partially-updated address list). -/
inductive PostAddrResult where
  | ok (u : CleanUserData) (allOk : Bool) (calls : List ApiCall)
  | died (u : CleanUserData) (exc : String) (calls : List ApiCall)
  deriving DecidableEq

/-- Function `_post_addresses` (`upload_data.py` lines 91-192): returns the
record with its addresses updated and `True` iff no address-creation
attempt failed (vacuously `True` on an empty list), or dies when an
`AttributeError` escapes one iteration of the loop. -/
def _post_addresses (u : CleanUserData) (cid : Int)
    (env : Nat → PostCallOutcome ResponsePostAddressYelo) : PostAddrResult :=
  match u.addresses with
  | [] => PostAddrResult.ok u true []
  | _ =>
    match addrLoop u cid env 0 u.addresses with
    | AddrLoopResult.ok as1 anyFailed tr =>
        PostAddrResult.ok { u with addresses := as1 } (!anyFailed) tr
    | AddrLoopResult.died as1 exc tr =>
        PostAddrResult.died { u with addresses := as1 } exc tr

/-- Function `_post_custom_fields` (`upload_data.py` lines 195-254): a stub that
always reports success and issues no request. -/
def _post_custom_fields (_u : CleanUserData) (_cid : Int) : Bool := true

/-- The per-record outcome environment: the client outcome for the
user-creation request and, indexed by address position, for each
address-creation request. -/
structure RecordEnv where
  userOut : PostCallOutcome ResponsePostUserYelo
  addrOut : Nat → PostCallOutcome ResponsePostAddressYelo

/-- Result of `upload_user`: a normal completion (record in a terminal
status, request trace) or an exception escaping the worker (record state at
the raise, exception text, trace). -/
inductive UploadResult where
  | ok (u : CleanUserData) (calls : List ApiCall)
  | died (u : CleanUserData) (exc : String) (calls : List ApiCall)
  deriving DecidableEq

/-- Function `upload_user` (`upload_data.py` lines 257-311): the per-record
state machine.  `upload_user` has no `try` of its own, so an
`AttributeError` escaping `_post_user` or `_post_addresses` escapes the
worker; note that `user_data.customer_id` is assigned at line 276 before
the address step, so a record dying during the address step keeps its
remote id. -/
def upload_user (u : CleanUserData) (env : RecordEnv) : UploadResult :=
  let u0 := { u with upload_status := some "processing" }
  match _post_user u0 env.userOut with
  | PostUserResult.died st exc tr1 => UploadResult.died st exc tr1
  | PostUserResult.ok u1 cid? tr1 =>
    match cid? with
    | none => UploadResult.ok { u1 with upload_status := some "failed" } tr1
    | some cid =>
      let u2 := { u1 with customer_id := some cid }
      match _post_addresses u2 cid env.addrOut with
      | PostAddrResult.died u3 exc tr2 => UploadResult.died u3 exc (tr1 ++ tr2)
      | PostAddrResult.ok u3 allAddrOk tr2 =>
        let allFieldsOk := _post_custom_fields u3 cid
        let u4 :=
          if allAddrOk && allFieldsOk then
            { u3 with upload_status := some "success" }
          else if u3.addresses.any
              (fun a => a.upload_status == some "success") then
            { u3 with
                upload_status := some "partial",
                error_message :=
                  some "User created, but one or more addresses/fields failed." }
          else
            { u3 with
                upload_status := some "failed",
                error_message :=
                  some "User created, but all addresses/fields failed." }
        UploadResult.ok u4 (tr1 ++ tr2)

/-- How one launched worker settles at the `asyncio.gather` boundary
(`return_exceptions=True`): either `upload_user` ran under a per-record
outcome environment (possibly dying on the modelled
`AttributeError`/`TypeError` paths), or some other unexpected fault escaped
the worker, leaving the record in the state it had been mutated to when the
fault was raised, with the requests issued so far. -/
inductive WorkerOutcome where
  | completed (env : RecordEnv)
  | raised (state : CleanUserData) (msg : String) (calls : List ApiCall)

/-- Runs one worker: the resulting record state, the exception delivered by
`gather` (if any), and the requests issued. -/
def runOne (u : CleanUserData) (w : WorkerOutcome) :
    CleanUserData × Option String × List ApiCall :=
  match w with
  | .completed env =>
      match upload_user u env with
      | UploadResult.ok u1 tr => (u1, none, tr)
      | UploadResult.died st exc tr => (st, some exc, tr)
  | .raised st m calls => (st, some m, calls)

/-- Per-record bookkeeping of the batch: the (possibly mutated) record,
whether it was selected for processing (`customer_id` null at batch start),
the exception its worker raised (if any), and its request trace. -/
structure ProcRec where
  record : CleanUserData
  processed : Bool
  exc : Option String
  calls : List ApiCall

/-- The task-launch loop of `run_bulk_upload` (`upload_data.py` lines
330-336 and 349): records with a null `customer_id` get a worker (indexed
by original position feeding the outcome environment `w`), the others are
skipped. -/
def runWorkers (w : Nat → WorkerOutcome) :
    Nat → List CleanUserData → List ProcRec
  | _, [] => []
  | i, u :: rest =>
    let pr : ProcRec :=
      if u.customer_id.isSome then ⟨u, false, none, []⟩
      else
        let (u1, exc, calls) := runOne u (w i)
        ⟨u1, true, exc, calls⟩
    pr :: runWorkers w (i + 1) rest

/-- Python falsiness of an optional string (`not x`): `None` or `""`. -/
def strFalsy : Option String → Bool
  | none => true
  | some s => s.isEmpty

/-- The body of the results-processing loop of `run_bulk_upload`
(`upload_data.py` lines 354-393) for one to-process record: given the
record state after its worker settled and the exception `gather` delivered
for it (if any), returns the record as left by the loop and the tally
bucket it is counted under.  Note the loop updates only the local
`final_status` variable, never the record's own `upload_status` field. -/
def tallyOne (u : CleanUserData) (exc : Option String) :
    CleanUserData × String :=
  let final0 := u.upload_status
  let (u1, final1) :=
    match exc with
    | none => (u, final0)
    | some m =>
      if final0 = some "failed" ∨ final0 = some "partial" then (u, final0)
      else
        (if strFalsy u.error_message then
           { u with error_message := some ("Unexpected task failure: " ++ m) }
         else u,
         some "failed")
  let final2 :=
    if final1 = some "success" ∨ final1 = some "partial" ∨ final1 = some "failed"
    then final1 else some "failed"
  let u2 :=
    if strFalsy u1.error_message then
      { u1 with
          error_message :=
            some "Processing did not complete or ended in unexpected state." }
    else u1
  let bucket :=
    if final2 = some "success" then "success"
    else if final2 = some "partial" then "partial"
    else "failed"
  (u2, bucket)

/-- The results-processing loop over the whole batch: skipped records pass
through untouched; each processed record goes through `tallyOne` and bumps
exactly one of the three counters (success, partial, failed). -/
def tallyAll : List ProcRec → List CleanUserData × Nat × Nat × Nat
  | [] => ([], 0, 0, 0)
  | p :: rest =>
    let (us, s, pa, f) := tallyAll rest
    if p.processed then
      let (u1, bucket) := tallyOne p.record p.exc
      if bucket = "success" then (u1 :: us, s + 1, pa, f)
      else if bucket = "partial" then (u1 :: us, s, pa + 1, f)
      else (u1 :: us, s, pa, f + 1)
    else (p.record :: us, s, pa, f)

/-- The observable outcome of `run_bulk_upload`: the final record list (in
original input order), the three tally counters, the requests issued
(per-record traces concatenated in input order; the source interleaves them
arbitrarily across concurrent workers), and whether `save_to_json` ran. -/
structure BulkResult where
  users : List CleanUserData
  nSuccess : Nat
  nPartial : Nat
  nFailed : Nat
  calls : List ApiCall
  fileWritten : Bool
  deriving DecidableEq

/-- Function `run_bulk_upload` (`upload_data.py` lines 315-401).  If no record has a
null `customer_id`, `tasks_to_run` is empty and the function returns before
`asyncio.gather` and before `save_to_json` (the early `return` at line 340
leaves the `async with` block and skips line 395 entirely). -/
def run_bulk_upload (users : List CleanUserData) (w : Nat → WorkerOutcome) :
    BulkResult :=
  if users.all (fun u => u.customer_id.isSome) then
    { users := users, nSuccess := 0, nPartial := 0, nFailed := 0,
      calls := [], fileWritten := false }
  else
    let procs := runWorkers w 0 users
    let (finalUsers, s, pa, f) := tallyAll procs
    { users := finalUsers, nSuccess := s, nPartial := pa, nFailed := f,
      calls := procs.foldr (fun p acc => p.calls ++ acc) [],
      fileWritten := true }

/-- Function `save_to_json` (`utils.py`) overwrites the results file with the final
record list; modelling the file as an optional previous content, the file
after the run is the new list when the persist step ran, else untouched. -/
def resultsFileAfter (r : BulkResult) (prev : Option (List CleanUserData)) :
    Option (List CleanUserData) :=
  if r.fileWritten then some r.users else prev

/-- What `run_bulk_upload` leaves at original index `j` for a record `u`
(provided the batch was not empty of work): skipped records are untouched,
processed ones are the tallied result of their worker. -/
def recordResult (w : Nat → WorkerOutcome) (j : Nat) (u : CleanUserData) :
    CleanUserData :=
  if u.customer_id.isSome then u
  else
    let (u1, exc, _) := runOne u (w j)
    (tallyOne u1 exc).1

/-! Embedding of the response-handling path of `YeloApiClient._request`
(`api_client.py` lines 152-256).  The raw `httpx` call is abstracted by its
outcome; `J` stands for parsed JSON values and `α` for a validated response
model, with the pydantic `model_validate` abstracted as a partial
validator. -/

/-- The body of an HTTP response: empty content, text that is not valid
JSON, or a parsed JSON value. -/
inductive RespBody (J : Type) where
  | empty
  | notJson (text : String)
  | json (v : J)

/-- Outcome of the raw `httpx` request: one of the `httpx` exception kinds
caught by `_request`, or a response with a status code and body. -/
inductive HttpOutcome (J : Type) where
  | timedOut
  | connectFailed
  | requestFailed
  | response (status : Nat) (body : RespBody J)

/-- Successful return value of `_request`: `None` (204/empty body), the raw
parsed JSON, or a validated model instance. -/
inductive ReqSuccess (J α : Type) where
  | asNone
  | raw (j : J)
  | validated (a : α)

/-- Method `YeloApiClient._request` (`api_client.py` lines 152-256), given
the raw call outcome.  The timeout/connect/request-error handlers construct
`ApiTimeoutError`/`ApiConnectionError`/`ApiClientError`, which works, and
raise them.  The two `ApiHttpError` sites (the handler for
`raise_for_status` at lines 237-251 and the strict expected-status check at
lines 167-175) and the `ApiResponseValidationError` site (lines 213-221)
actually raise `TypeError` — the broken constructors — so callers receive
`.typeErr`, never `.httpErr`/`.shapeErr`.  A 204 status or empty content
returns `None`; a body that fails JSON decoding raises the (constructible)
generic `ApiClientError`. -/
def requestCore {J α : Type} (expected : Nat)
    (validate : Option (J → Option α)) (out : HttpOutcome J) :
    Except ApiError (ReqSuccess J α) :=
  match out with
  | .timedOut => .error (.timeoutErr "Request timed out")
  | .connectFailed => .error (.connectionErr "Connection error")
  | .requestFailed => .error (.genericErr "Generic request error")
  | .response status body =>
    if 400 ≤ status then
      .error (.typeErr TYPE_ERROR_TEXT)
    else if status ≠ expected then
      .error (.typeErr TYPE_ERROR_TEXT)
    else if status = 204 then
      .ok .asNone
    else
      match body with
      | .empty => .ok .asNone
      | .notJson _ =>
          .error (.genericErr "Failed to decode JSON response from API.")
      | .json v =>
          match validate with
          | none => .ok (.raw v)
          | some f =>
              match f v with
              | some a => .ok (.validated a)
              | none =>
                  .error (.typeErr TYPE_ERROR_TEXT)

/-- Discriminator: did `_request` fail with `ApiResponseValidationError`
(the response-shape error)? -/
def isShapeError {J α : Type} : Except ApiError (ReqSuccess J α) → Bool
  | .error (.shapeErr _) => true
  | _ => false

/-- Discriminator: did `_request` fail with the base `ApiClientError` (the
generic client error)? -/
def isGenericError {J α : Type} : Except ApiError (ReqSuccess J α) → Bool
  | .error (.genericErr _) => true
  | _ => false

/-! Helper lemmas about the orchestrator. -/

/-- Sum of the three tally counters. -/
def countsSum (t : List CleanUserData × Nat × Nat × Nat) : Nat :=
  t.2.1 + t.2.2.1 + t.2.2.2

/-- The record left by one iteration of the results-processing loop. -/
def procResult (p : ProcRec) : CleanUserData :=
  if p.processed then (tallyOne p.record p.exc).1 else p.record

lemma tallyAll_fst_cons (p : ProcRec) (ps : List ProcRec) :
    (tallyAll (p :: ps)).1 = procResult p :: (tallyAll ps).1 := by
  rcases h : tallyAll ps with ⟨us, s, pa, f⟩
  simp only [tallyAll, h, procResult]
  split <;> [skip; rfl]
  split <;> [rfl; skip]
  split <;> rfl

lemma countsSum_tallyAll_cons (p : ProcRec) (ps : List ProcRec) :
    countsSum (tallyAll (p :: ps)) =
      (if p.processed then 1 else 0) + countsSum (tallyAll ps) := by
  rcases h : tallyAll ps with ⟨us, s, pa, f⟩
  simp only [tallyAll, h, countsSum]
  split
  · split
    · simp; omega
    · split <;> simp <;> omega
  · simp

lemma countsSum_tallyAll (ps : List ProcRec) :
    countsSum (tallyAll ps) = (ps.filter (fun p => p.processed)).length := by
  induction ps with
  | nil => rfl
  | cons p ps ih =>
    rw [countsSum_tallyAll_cons, ih, List.filter_cons]
    split <;> simp_all
    omega

lemma runWorkers_cons (w : Nat → WorkerOutcome) (i : Nat)
    (u : CleanUserData) (rest : List CleanUserData) :
    runWorkers w i (u :: rest) =
      (if u.customer_id.isSome then (⟨u, false, none, []⟩ : ProcRec)
       else ⟨(runOne u (w i)).1, true, (runOne u (w i)).2.1,
             (runOne u (w i)).2.2⟩) :: runWorkers w (i + 1) rest := by
  rcases h : runOne u (w i) with ⟨u1, exc, calls⟩
  simp only [runWorkers, h]

lemma runWorkers_processed_count (w : Nat → WorkerOutcome) :
    ∀ (us : List CleanUserData) (i : Nat),
      ((runWorkers w i us).filter (fun p => p.processed)).length =
        (us.filter (fun u => u.customer_id.isNone)).length := by
  intro us
  induction us with
  | nil => intro i; rfl
  | cons u rest ih =>
    intro i
    rw [runWorkers_cons, List.filter_cons, List.filter_cons]
    rcases h : u.customer_id with _ | c <;> simp [h, ih]

lemma run_bulk_upload_counts (users : List CleanUserData)
    (w : Nat → WorkerOutcome) :
    (run_bulk_upload users w).nSuccess + (run_bulk_upload users w).nPartial +
        (run_bulk_upload users w).nFailed =
      (users.filter (fun u => u.customer_id.isNone)).length := by
  by_cases hall : users.all (fun u => u.customer_id.isSome) = true
  · have hnil : users.filter (fun u => u.customer_id.isNone) = [] := by
      rw [List.filter_eq_nil_iff]
      intro a ha
      have := List.all_eq_true.mp hall a ha
      rcases h : a.customer_id with _ | c <;> simp_all
    simp [run_bulk_upload, hall, hnil]
  · rcases h : tallyAll (runWorkers w 0 users) with ⟨fus, s, pa, f⟩
    have hsum := countsSum_tallyAll (runWorkers w 0 users)
    rw [runWorkers_processed_count w users 0] at hsum
    rw [h] at hsum
    simp only [countsSum] at hsum
    simp [run_bulk_upload, hall, h]
    omega

/-- Claim C1: after `run_bulk_upload` completes on any batch, the tallied
counts satisfy `success + partial + failed = number of records whose
`customer_id` was null at batch start`; each to-process record is counted
exactly once under exactly one of the three statuses (an unrecognized
terminal status is counted as failed). -/
theorem run_bulk_upload_tally_sums (users : List CleanUserData)
    (w : Nat → WorkerOutcome) :
    (run_bulk_upload users w).nSuccess + (run_bulk_upload users w).nPartial +
        (run_bulk_upload users w).nFailed =
      (users.filter (fun u => u.customer_id.isNone)).length :=
  run_bulk_upload_counts users w

lemma append_ne_empty (s t : String) (h : s.data ≠ []) : s ++ t ≠ "" := by
  intro he
  have hd : (s ++ t).data = ("" : String).data := by rw [he]
  simp at hd
  exact h hd.1

lemma strFalsy_false (o : Option String) (h : strFalsy o = false) :
    ∃ s, o = some s ∧ s ≠ "" := by
  cases o with
  | none => simp [strFalsy] at h
  | some s =>
    refine ⟨s, rfl, ?_⟩
    intro he
    subst he
    exact absurd h (by decide)

lemma tallyOne_error_nonempty (u : CleanUserData) (exc : Option String) :
    ∃ s, ((tallyOne u exc).1).error_message = some s ∧ s ≠ "" := by
  have main : ∀ (v : CleanUserData),
      ∃ s, ((if strFalsy v.error_message then
               { v with
                   error_message :=
                     some "Processing did not complete or ended in unexpected state." }
             else v) : CleanUserData).error_message = some s ∧ s ≠ "" := by
    intro v
    by_cases hf : strFalsy v.error_message = true
    · exact ⟨"Processing did not complete or ended in unexpected state.",
        by rw [if_pos hf], by decide⟩
    · rcases strFalsy_false v.error_message
        (by cases hb : strFalsy v.error_message <;> simp_all) with ⟨s, hs, hne⟩
      exact ⟨s, by rw [if_neg hf, hs], hne⟩
  simp only [tallyOne]
  exact main _

lemma tallyAll_runWorkers_get? (w : Nat → WorkerOutcome) :
    ∀ (us : List CleanUserData) (j i : Nat),
      (tallyAll (runWorkers w j us)).1[i]? =
        (us[i]?).map (recordResult w (j + i)) := by
  intro us
  induction us with
  | nil => intro j i; simp [runWorkers, tallyAll]
  | cons u rest ih =>
    intro j i
    rw [runWorkers_cons, tallyAll_fst_cons]
    cases i with
    | zero =>
      rcases h : runOne u (w j) with ⟨u1, exc, calls⟩
      rcases hcid : u.customer_id with _ | c <;>
        simp [procResult, recordResult, hcid, h]
    | succ i =>
      simp only [List.getElem?_cons_succ]
      have hj : (j + 1) + i = j + (i + 1) := by omega
      rw [ih (j + 1) i, hj]

lemma run_bulk_upload_users_get? (users : List CleanUserData)
    (w : Nat → WorkerOutcome)
    (hall : users.all (fun u => u.customer_id.isSome) = false) (i : Nat) :
    (run_bulk_upload users w).users[i]? = (users[i]?).map (recordResult w i) := by
  have h := tallyAll_runWorkers_get? w users 0 i
  rcases ht : tallyAll (runWorkers w 0 users) with ⟨fus, s, pa, f⟩
  rw [ht] at h
  simp only [Nat.zero_add] at h
  simp [run_bulk_upload, hall, ht]
  exact h

lemma all_isSome_false_of_null (users : List CleanUserData) (i : Nat)
    (u : CleanUserData) (h : users[i]? = some u) (hn : u.customer_id = none) :
    users.all (fun x => x.customer_id.isSome) = false := by
  by_contra hc
  have hall : users.all (fun x => x.customer_id.isSome) = true := by
    cases hb : users.all (fun x => x.customer_id.isSome) <;> simp_all
  have hmem := List.all_eq_true.mp hall u (List.getElem?_mem h)
  rw [hn] at hmem
  simp at hmem

lemma recordResult_skip (w : Nat → WorkerOutcome) (j : Nat)
    (u : CleanUserData) (hs : u.customer_id.isSome = true) :
    recordResult w j u = u := by
  simp [recordResult, hs]

lemma recordResult_null (w : Nat → WorkerOutcome) (j : Nat)
    (u : CleanUserData) (hn : u.customer_id = none) :
    recordResult w j u =
      (tallyOne (runOne u (w j)).1 (runOne u (w j)).2.1).1 := by
  rcases h : runOne u (w j) with ⟨u1, exc, calls⟩
  simp [recordResult, hn, h]

/-- Claim C6: a record holding a non-null `customer_id` at batch start is
never mutated by `run_bulk_upload` (it reappears unchanged, nested
addresses included, at its original position) and is excluded from the
success/partial/failed tally denominator. -/
theorem already_done_record_untouched (users : List CleanUserData)
    (w : Nat → WorkerOutcome) (i : Nat) (u : CleanUserData)
    (h : users[i]? = some u) (hdone : u.customer_id.isSome = true) :
    (run_bulk_upload users w).users[i]? = some u ∧
      (run_bulk_upload users w).nSuccess + (run_bulk_upload users w).nPartial +
          (run_bulk_upload users w).nFailed =
        (users.filter (fun x => x.customer_id.isNone)).length := by
  refine ⟨?_, run_bulk_upload_counts users w⟩
  by_cases hall : users.all (fun x => x.customer_id.isSome) = true
  · simp [run_bulk_upload, hall, h]
  · have hall2 : users.all (fun x => x.customer_id.isSome) = false := by
      cases hb : users.all (fun x => x.customer_id.isSome) <;> simp_all
    rw [run_bulk_upload_users_get? users w hall2 i, h]
    simp [recordResult_skip w i u hdone]

lemma run_bulk_upload_early (users : List CleanUserData)
    (w : Nat → WorkerOutcome)
    (hall : users.all (fun u => u.customer_id.isSome) = true) :
    run_bulk_upload users w =
      { users := users, nSuccess := 0, nPartial := 0, nFailed := 0,
        calls := [], fileWritten := false } := by
  simp [run_bulk_upload, hall]

/-- Claim C9: if no record in the input list has a null `customer_id`
(including the empty list), `run_bulk_upload` returns early: no request is
made, no record is mutated, the tally is all zeroes, the persist step never
runs, and a pre-existing results file is left untouched. -/
theorem nothing_to_upload_early_return (users : List CleanUserData)
    (w : Nat → WorkerOutcome) (prev : Option (List CleanUserData))
    (hall : users.all (fun u => u.customer_id.isSome) = true) :
    run_bulk_upload users w =
      { users := users, nSuccess := 0, nPartial := 0, nFailed := 0,
        calls := [], fileWritten := false } ∧
      resultsFileAfter (run_bulk_upload users w) prev = prev := by
  have h1 := run_bulk_upload_early users w hall
  exact ⟨h1, by rw [h1]; simp [resultsFileAfter]⟩

/-- Claim C10: every to-process record ends with a non-empty error message,
`success` records included: whenever a record finishes with a falsy error
message, the tally loop writes the default text
"Processing did not complete or ended in unexpected state." into its
`error_message` field. -/
theorem processed_record_error_nonempty (users : List CleanUserData)
    (w : Nat → WorkerOutcome) (i : Nat) (u : CleanUserData)
    (h : users[i]? = some u) (hn : u.customer_id = none) :
    (∃ u1 s, (run_bulk_upload users w).users[i]? = some u1 ∧
        u1.error_message = some s ∧ s ≠ "") ∧
      (∀ v : CleanUserData, strFalsy v.error_message = true →
        ((tallyOne v none).1).error_message =
          some "Processing did not complete or ended in unexpected state.") := by
  constructor
  · have hall := all_isSome_false_of_null users i u h hn
    have hru := run_bulk_upload_users_get? users w hall i
    rw [h] at hru
    simp only [Option.map_some'] at hru
    rw [recordResult_null w i u hn] at hru
    rcases tallyOne_error_nonempty (runOne u (w i)).1 (runOne u (w i)).2.1 with
      ⟨s, hs, hne⟩
    exact ⟨_, s, hru, hs, hne⟩
  · intro v hf
    simp [tallyOne, hf]

lemma tallyOne_status (u : CleanUserData) (exc : Option String) :
    ((tallyOne u exc).1).upload_status = u.upload_status := by
  rcases exc with _ | m <;> simp only [tallyOne] <;> split_ifs <;> rfl

lemma strFalsy_some_of_ne (s : String) (h : s ≠ "") :
    strFalsy (some s) = false := by
  cases hb : s.isEmpty with
  | false => simpa [strFalsy] using hb
  | true => exact absurd ((String.isEmpty_iff s).mp hb) h

/-- Claim C4 (amended): when the worker of a to-process record raises an
unexpected fault, the batch does not abort — every record is still tallied
exactly once (the counts sum to the number of to-process records) and every
other record's outcome is unaffected; the offending record is counted under
`failed` in the tally (provided its status at the fault was not already
`failed` or `partial`) and receives the default error message when none was
set, but — correcting the claim — its own `upload_status` field is NOT
forced to `failed`: the results loop only changes its local `final_status`
variable, so the persisted record keeps the status it had when the fault
was raised (typically `processing`). -/
theorem worker_fault_tallied_failed (users : List CleanUserData)
    (w : Nat → WorkerOutcome) (i : Nat) (u st : CleanUserData) (m : String)
    (calls : List ApiCall)
    (h : users[i]? = some u) (hn : u.customer_id = none)
    (hw : w i = WorkerOutcome.raised st m calls)
    (hst1 : st.upload_status ≠ some "failed")
    (hst2 : st.upload_status ≠ some "partial") :
    ((run_bulk_upload users w).nSuccess + (run_bulk_upload users w).nPartial +
        (run_bulk_upload users w).nFailed =
      (users.filter (fun x => x.customer_id.isNone)).length) ∧
      (∀ j v, j ≠ i → users[j]? = some v →
        (run_bulk_upload users w).users[j]? = some (recordResult w j v)) ∧
      (run_bulk_upload users w).users[i]? = some ((tallyOne st (some m)).1) ∧
      (tallyOne st (some m)).2 = "failed" ∧
      (strFalsy st.error_message = true →
        ((tallyOne st (some m)).1).error_message =
          some ("Unexpected task failure: " ++ m)) ∧
      ((tallyOne st (some m)).1).upload_status = st.upload_status := by
  have hall := all_isSome_false_of_null users i u h hn
  have hcond : ¬(st.upload_status = some "failed" ∨
      st.upload_status = some "partial") := by tauto
  refine ⟨run_bulk_upload_counts users w, ?_, ?_, ?_, ?_, tallyOne_status st (some m)⟩
  · intro j v _ hjv
    rw [run_bulk_upload_users_get? users w hall j, hjv]
    simp
  · rw [run_bulk_upload_users_get? users w hall i, h]
    simp only [Option.map_some']
    rw [recordResult_null w i u hn, hw]
    simp [runOne]
  · simp [tallyOne, hcond]
  · intro hf
    have hne := append_ne_empty "Unexpected task failure: " m (by decide)
    simp [tallyOne, hcond, hf, strFalsy_some_of_ne _ hne]

/-- Claim C5 (amended): re-running `run_bulk_upload` on the list produced
by a first run performs zero network requests and returns every record
unchanged (all record and address statuses included) PROVIDED every record
ended the first run holding a non-null `customer_id`; the amendment is
forced because a record whose user-creation failed in the first run still
has a null `customer_id` and is re-attempted (with fresh network calls) by
the second run. -/
theorem second_run_noop_when_all_created (users : List CleanUserData)
    (w w2 : Nat → WorkerOutcome)
    (h : ∀ v ∈ (run_bulk_upload users w).users, v.customer_id.isSome = true) :
    run_bulk_upload (run_bulk_upload users w).users w2 =
      { users := (run_bulk_upload users w).users, nSuccess := 0,
        nPartial := 0, nFailed := 0, calls := [], fileWritten := false } := by
  exact run_bulk_upload_early (run_bulk_upload users w).users w2
    (List.all_eq_true.mpr h)

/-- Claim C8 (amended): when the response status is a success equal to the
expected code but the body is not valid JSON, `_request` fails with the
generic client error `ApiClientError` ("Failed to decode JSON response from
API.") — not, as the claim stated, with the response-shape error
`ApiResponseValidationError`.  (A shape error is in fact never deliverable
at all: where the source tries to raise it on failed structural validation,
its broken constructor raises `TypeError` instead.) -/
theorem invalid_json_on_success_is_generic_error (J α : Type)
    (expected status : Nat) (t : String) (validate : Option (J → Option α))
    (h1 : status < 400) (h2 : status = expected) (h3 : status ≠ 204) :
    requestCore expected validate
        (HttpOutcome.response status (RespBody.notJson t)) =
      Except.error
        (ApiError.genericErr "Failed to decode JSON response from API.") := by
  subst h2
  have h4 : ¬(400 ≤ status) := by omega
  simp [requestCore, h4, h3]

/-! Concrete fixtures used by witnesses and counterexamples. -/

/-- A not-yet-created address. -/
def addrFx : CleanAddress :=
  { address := "Av 1", latitude := 1, longitude := 2, house_no := "3",
    loc_type := 0, postal_code := "15001" }

/-- A to-process record with one address. -/
def recFx : CleanUserData :=
  { password := "doc1", first_name := "Ana", last_name := "Diaz",
    email := some "a@b.c", phone_no := some "999", addresses := [addrFx],
    customer_id := none }

/-- A record already created in an earlier run. -/
def recDoneFx : CleanUserData := { recFx with customer_id := some 5 }

/-- A to-process record without addresses. -/
def recNoAddrFx : CleanUserData := { recFx with addresses := [] }

/-- A second not-yet-created address. -/
def addrFx2 : CleanAddress :=
  { addrFx with address := "Av 2", loc_type := 1 }

/-- A to-process record with two not-yet-created addresses. -/
def recTwoNullFx : CleanUserData :=
  { recFx with addresses := [addrFx, addrFx2] }

/-- A successful user-creation response. -/
def okUserFx : PostCallOutcome ResponsePostUserYelo :=
  PostCallOutcome.ok { message := "m", status := 1, data := { customer_id := 11 } }

/-- A successful address-creation response. -/
def okAddrFx : PostCallOutcome ResponsePostAddressYelo :=
  PostCallOutcome.ok { message := "m", status := 1, data := { id := 21 } }

/-- Environment where every request succeeds. -/
def envAllOkFx : RecordEnv := { userOut := okUserFx, addrOut := fun _ => okAddrFx }

/-- Environment where the user-creation request times out. -/
def envUserFailFx : RecordEnv :=
  { userOut := PostCallOutcome.err (ApiError.timeoutErr "Request timed out"),
    addrOut := fun _ => okAddrFx }

/-- Address environment where every request raises `ApiTimeoutError`. -/
def envAddrDieFx : Nat → PostCallOutcome ResponsePostAddressYelo :=
  fun _ => PostCallOutcome.err (ApiError.timeoutErr "Request timed out")

/-- Environment where user creation and the first address succeed and the
second address request raises `ApiTimeoutError`. -/
def envC2Fx : RecordEnv :=
  { userOut := okUserFx,
    addrOut := fun i => if i = 0 then okAddrFx
                        else PostCallOutcome.err
                          (ApiError.timeoutErr "Request timed out") }

/-- Batch where every worker runs under `envC2Fx`. -/
def wC2Fx : Nat → WorkerOutcome := fun _ => WorkerOutcome.completed envC2Fx

/-- Batch where every worker completes with all requests succeeding. -/
def wAllOkFx : Nat → WorkerOutcome := fun _ => WorkerOutcome.completed envAllOkFx

/-- Batch where every worker completes but user creation fails. -/
def wUserFailFx : Nat → WorkerOutcome :=
  fun _ => WorkerOutcome.completed envUserFailFx

/-- The record state at the moment an unexpected worker fault is raised. -/
def stRaisedFx : CleanUserData :=
  { recNoAddrFx with upload_status := some "processing" }

/-- Batch where every worker raises an unexpected fault. -/
def wRaiseFx : Nat → WorkerOutcome :=
  fun _ => WorkerOutcome.raised stRaisedFx "boom" []

/-- Counterexample to claim C4 as stated: a worker raises an unexpected
fault while its record is `processing`; the run tallies it as failed
(`nFailed = 1`) but the record's own status field is left at `processing`,
not forced to `failed`. -/
theorem worker_fault_status_not_forced :
    (run_bulk_upload [recNoAddrFx] wRaiseFx).nFailed = 1 ∧
      (run_bulk_upload [recNoAddrFx] wRaiseFx).users.map
          (fun v => v.upload_status) = [some "processing"] ∧
      some "processing" ≠ some "failed" := by
  refine ⟨by decide, by decide, by decide⟩

/-- Witness for the amended claim C4 at a concrete input. -/
theorem worker_fault_tallied_failed_witness :
    (run_bulk_upload [recNoAddrFx] wRaiseFx).users[0]? =
        some ((tallyOne stRaisedFx (some "boom")).1) ∧
      (tallyOne stRaisedFx (some "boom")).2 = "failed" ∧
      ((tallyOne stRaisedFx (some "boom")).1).upload_status =
        stRaisedFx.upload_status :=
  ⟨(worker_fault_tallied_failed [recNoAddrFx] wRaiseFx 0 recNoAddrFx
      stRaisedFx "boom" [] rfl rfl rfl (by decide) (by decide)).2.2.1,
   (worker_fault_tallied_failed [recNoAddrFx] wRaiseFx 0 recNoAddrFx
      stRaisedFx "boom" [] rfl rfl rfl (by decide) (by decide)).2.2.2.1,
   (worker_fault_tallied_failed [recNoAddrFx] wRaiseFx 0 recNoAddrFx
      stRaisedFx "boom" [] rfl rfl rfl (by decide) (by decide)).2.2.2.2.2⟩

/-- Counterexample to claim C5 as stated: after a first run in which user
creation failed, the record still has a null `customer_id`, so a second run
on the produced list issues a fresh network request (one call, not zero). -/
theorem second_run_not_call_free :
    (run_bulk_upload (run_bulk_upload [recFx] wUserFailFx).users
        wUserFailFx).calls ≠ [] := by
  decide

/-- Witness for the amended claim C5 at a concrete input. -/
theorem second_run_noop_witness :
    run_bulk_upload (run_bulk_upload [recNoAddrFx] wAllOkFx).users wAllOkFx =
      { users := (run_bulk_upload [recNoAddrFx] wAllOkFx).users,
        nSuccess := 0, nPartial := 0, nFailed := 0, calls := [],
        fileWritten := false } :=
  second_run_noop_when_all_created [recNoAddrFx] wAllOkFx wAllOkFx (by decide)

/-- Counterexample to claim C8 as stated: a 200 response equal to the
expected code whose body is not valid JSON makes `_request` fail with the
generic client error, not the response-shape error. -/
theorem invalid_json_not_shape_error :
    isGenericError (@requestCore Unit Unit 200 (some (fun _ => none))
        (HttpOutcome.response 200 (RespBody.notJson "oops"))) = true ∧
      isShapeError (@requestCore Unit Unit 200 (some (fun _ => none))
        (HttpOutcome.response 200 (RespBody.notJson "oops"))) = false := by
  exact ⟨rfl, rfl⟩

/-- Witness for the amended claim C8 at a concrete input. -/
theorem invalid_json_generic_error_witness :
    @requestCore Unit Unit 200 (some (fun _ => none))
        (HttpOutcome.response 200 (RespBody.notJson "oops")) =
      Except.error
        (ApiError.genericErr "Failed to decode JSON response from API.") :=
  invalid_json_on_success_is_generic_error Unit Unit 200 200 "oops"
    (some (fun _ => none)) (by decide) rfl (by decide)

/-- Witness for claim C6 at a concrete input: an already-created record
passes through the batch unchanged. -/
theorem already_done_record_witness :
    (run_bulk_upload [recDoneFx, recFx] wAllOkFx).users[0]? = some recDoneFx :=
  (already_done_record_untouched [recDoneFx, recFx] wAllOkFx 0 recDoneFx
      rfl rfl).1

/-- Witness for claim C9 at a concrete input: a batch with only an
already-created record leaves everything, the results file included,
untouched. -/
theorem nothing_to_upload_witness :
    run_bulk_upload [recDoneFx] wAllOkFx =
      { users := [recDoneFx], nSuccess := 0, nPartial := 0, nFailed := 0,
        calls := [], fileWritten := false } ∧
      resultsFileAfter (run_bulk_upload [recDoneFx] wAllOkFx)
        (some [recFx]) = some [recFx] :=
  nothing_to_upload_early_return [recDoneFx] wAllOkFx (some [recFx])
    (by decide)

/-- Witness for claim C10 at a concrete input: a record finishing `success`
with no recorded error gets the default error text. -/
theorem processed_record_error_witness :
    ((tallyOne { recNoAddrFx with upload_status := some "success" }
        none).1).error_message =
      some "Processing did not complete or ended in unexpected state." :=
  (processed_record_error_nonempty [recNoAddrFx] wAllOkFx 0 recNoAddrFx
      rfl rfl).2
    { recNoAddrFx with upload_status := some "success" } rfl

/-- Claim C3 (code bug, evaluated at the failing input): user creation hit
by `ApiTimeoutError`.  The declared handler (`upload_data.py` lines 79-82)
crashes evaluating `str(e)` at line 80 (`AttributeError` from the broken
`ApiClientError.__str__`) before line 81 stores any message, so instead of
the claimed "status `failed` with a stored non-empty message" the worker
dies with the record left `processing` and no error message.  The parts of
the claim that do hold: the remote identifier stays null and the single
request issued is the user-creation one (no address/field request). -/
theorem user_creation_error_kills_worker :
    upload_user recFx envUserFailFx =
      UploadResult.died { recFx with upload_status := some "processing" }
        ATTRIBUTE_ERROR_TEXT
        [ApiCall.postUser
          { api_key := YELO_API_KEY, first_name := "Ana", last_name := "Diaz",
            email := "a@b.c", phone_no := "999", password := "doc1" }] ∧
      ({ recFx with upload_status := some "processing" } :
          CleanUserData).error_message = none ∧
      ({ recFx with upload_status := some "processing" } :
          CleanUserData).customer_id = none ∧
      some "processing" ≠ some "failed" := by
  refine ⟨by decide, rfl, rfl, by decide⟩

/-- Claim C7 (code bug, evaluated at the failing input): two null-id
addresses, the first request raising `ApiTimeoutError`.  The declared
per-address handler (`upload_data.py` lines 167-173) crashes evaluating
`str(e)` in the logging f-string at line 168 before line 171 marks the
address failed: the hit address is left `processing` with no message
stored, the loop aborts (the `AttributeError` escapes the worker), and the
sibling address gets no creation attempt — a single request in the trace,
against the claim's "mark that address failed, store its message and
continue". -/
theorem address_error_kills_loop :
    _post_addresses recTwoNullFx 11 envAddrDieFx =
      PostAddrResult.died
        { recTwoNullFx with
            addresses := [{ addrFx with upload_status := some "processing" },
                          addrFx2] }
        ATTRIBUTE_ERROR_TEXT
        [ApiCall.postAddress (mkAddrPayload recTwoNullFx 11 addrFx)] ∧
      ({ addrFx with upload_status := some "processing" } :
          CleanAddress).error_message = none ∧
      some "processing" ≠ some "failed" := by
  refine ⟨by decide, rfl, by decide⟩

/-- Claim C2 (code bug, evaluated at the failing input): user creation
succeeds, the first address reaches `success`, the second is hit by
`ApiTimeoutError`.  The per-address handler crash (`AttributeError` from
`str(e)` at `upload_data.py` line 168) kills the worker before the
finalization step, so although at least one address reached `success` the
record never becomes `partial`: it ends the batch with its status field
still `processing` (tallied as failed with the default message), against
the claimed success/partial/failed trichotomy. -/
theorem partial_status_lost_on_worker_death :
    ((run_bulk_upload [recTwoNullFx] wC2Fx).users.map
        (fun v => v.upload_status)) = [some "processing"] ∧
      ((run_bulk_upload [recTwoNullFx] wC2Fx).users.map
        (fun v => v.addresses.map (fun a => a.upload_status))) =
        [[some "success", some "processing"]] ∧
      (run_bulk_upload [recTwoNullFx] wC2Fx).nFailed = 1 ∧
      some "processing" ≠ some "partial" := by
  refine ⟨by decide, by decide, by decide, by decide⟩

end Yelo
